import Mathlib

/-!
Shallow embedding of the Oracle trading system's decision core
(`src/strategy.py`, `src/risk_manager.py`, `src/main.py`) and proofs of the
spec's claims about it.

Conventions of the embedding:
* Python `float` values become `ℚ`.  Division in `ℚ` returns 0 on a zero
  denominator; wherever the Python code could divide by zero this is noted
  at the definition.
* `datetime.utcnow()` values are passed in explicitly: wall-clock instants
  as `ℚ` (seconds), wall-clock dates as `ℤ` (day numbers).
* Python dicts keyed by symbol become association lists with
  insert-replaces semantics (`dictInsert`), lookup (`dictFind`) and
  removal (`dictErase`).
-/

namespace Oracle

/-! ### Association-list dictionaries (Python `Dict[str, ...]`) -/

/-- Lookup in an association list, first binding wins. -/
def dictFind {β : Type} (k : String) : List (String × β) → Option β
  | [] => none
  | (k', v) :: rest => if k' = k then some v else dictFind k rest

/-- `d[k] = v`: replace the binding for `k` if present, else append. -/
def dictInsert {β : Type} (k : String) (v : β) : List (String × β) → List (String × β)
  | [] => [(k, v)]
  | (k', v') :: rest =>
      if k' = k then (k, v) :: rest else (k', v') :: dictInsert k v rest

/-- `d.pop(k)`: remove the (first) binding for `k`. -/
def dictErase {β : Type} (k : String) : List (String × β) → List (String × β)
  | [] => []
  | (k', v') :: rest =>
      if k' = k then rest else (k', v') :: dictErase k rest

/-! ### Data model (`risk_manager.py`) -/

/-- `RiskAction` enum from `risk_manager.py`. -/
inductive RiskAction where
  | ALLOW
  | REDUCE_SIZE
  | BLOCK
  | CLOSE_ALL
deriving DecidableEq, Repr

/-- `Position` dataclass from `risk_manager.py`. -/
structure Position where
  symbol : String
  side : String
  entry_price : ℚ
  size : ℚ
  entry_time : ℚ
  stop_loss : ℚ
  take_profit : ℚ
  trade_id : String
deriving DecidableEq, Repr

/-- One entry of `RiskManager._trade_history` (the dict built in
`close_position`). -/
structure TradeRecord where
  symbol : String
  side : String
  entry_price : ℚ
  exit_price : ℚ
  size : ℚ
  pnl : ℚ
  pnl_percent : ℚ
  entry_time : ℚ
  exit_time : ℚ
  reason : String
deriving DecidableEq, Repr

/-- The risk-related configuration fields read by `RiskManager`
(`config.risk` in `risk_manager.py`). -/
structure RiskConfig where
  max_daily_loss : ℚ
  max_drawdown : ℚ
  cool_down_after_loss : ℚ
  max_concurrent_trades : ℕ
deriving DecidableEq, Repr

/-- The mutable state of `RiskManager` (fields set in `__init__`). -/
structure RiskState where
  positions : List (String × Position)
  daily_pnl : ℚ
  peak_equity : ℚ
  current_drawdown : ℚ
  consecutive_losses : ℕ
  trade_history : List TradeRecord
  last_loss_time : Option ℚ
  daily_trade_count : ℕ
  last_reset : ℤ
deriving DecidableEq, Repr

/-- The state `RiskManager.__init__` builds (with `startDate` standing for
`datetime.utcnow().date()`). -/
def initRiskState (startDate : ℤ) : RiskState :=
  { positions := []
    daily_pnl := 0
    peak_equity := 0
    current_drawdown := 0
    consecutive_losses := 0
    trade_history := []
    last_loss_time := none
    daily_trade_count := 0
    last_reset := startDate }

/-! ### Risk-manager operations -/

/-- `RiskManager._reset_daily_metrics`, with `today` standing for
`datetime.utcnow().date()`. -/
def resetDailyMetrics (today : ℤ) (s : RiskState) : RiskState :=
  if s.last_reset < today then
    { s with daily_pnl := 0, daily_trade_count := 0, last_reset := today }
  else s

/-- `RiskManager.update_equity`.  Calls the daily reset, raises the peak
if exceeded, then recomputes the drawdown when the peak is positive. -/
def update_equity (today : ℤ) (equity : ℚ) (s : RiskState) : RiskState :=
  let s := resetDailyMetrics today s
  let s := if s.peak_equity < equity then { s with peak_equity := equity } else s
  if 0 < s.peak_equity then
    { s with current_drawdown := (s.peak_equity - equity) / s.peak_equity }
  else s

/-- Check (3) of `check_trade_allowed`: `last_loss_time` is set (a Python
`datetime` is always truthy), the streak is at least 3, and `now` is still
before `last_loss_time + cool_down_after_loss`. -/
def cooldownActive (cfg : RiskConfig) (now : ℚ) (s : RiskState) : Prop :=
  match s.last_loss_time with
  | some t => 3 ≤ s.consecutive_losses ∧ now < t + cfg.cool_down_after_loss
  | none => False

instance (cfg : RiskConfig) (now : ℚ) (s : RiskState) :
    Decidable (cooldownActive cfg now s) := by
  unfold cooldownActive
  cases s.last_loss_time <;> infer_instance

/-- The decision chain of `RiskManager.check_trade_allowed` (lines 138-177),
evaluated on the state after its `_reset_daily_metrics()` call; `now` stands
for `datetime.utcnow()`.  In check (2) the Python code divides
`daily_pnl / peak_equity`; with `peak_equity = 0` that line would raise
`ZeroDivisionError` in Python, while `ℚ` yields 0 (`peak_equity` is never
negative, and is 0 only before the first equity update). -/
def tradeDecision (cfg : RiskConfig) (now : ℚ) (symbol : String)
    (s : RiskState) : RiskAction :=
  if cfg.max_drawdown ≤ s.current_drawdown then
    RiskAction.CLOSE_ALL
  else if s.daily_pnl < 0 ∧ cfg.max_daily_loss ≤ |s.daily_pnl / s.peak_equity| then
    RiskAction.BLOCK
  else if cooldownActive cfg now s then
    RiskAction.BLOCK
  else if cfg.max_concurrent_trades ≤ s.positions.length then
    RiskAction.BLOCK
  else if (dictFind symbol s.positions).isSome then
    RiskAction.BLOCK
  else if cfg.max_drawdown * (7/10) ≤ s.current_drawdown then
    RiskAction.REDUCE_SIZE
  else
    RiskAction.ALLOW

/-- `RiskManager.check_trade_allowed`: runs the daily reset (its only state
effect), then the decision chain.  Returns the decision together with the
state the call leaves behind. -/
def check_trade_allowed (cfg : RiskConfig) (today : ℤ) (now : ℚ)
    (symbol : String) (s : RiskState) : RiskAction × RiskState :=
  let s := resetDailyMetrics today s
  (tradeDecision cfg now symbol s, s)

/-- `RiskManager.register_position` (lines 179-185): stores the position
under its symbol and increments the daily trade count, unconditionally. -/
def register_position (p : Position) (s : RiskState) : RiskState :=
  { s with positions := dictInsert p.symbol p s.positions
           daily_trade_count := s.daily_trade_count + 1 }

/-- `RiskManager.close_position` (lines 187-224); `now` stands for
`datetime.utcnow()`.  If the symbol has no registered position the function
logs a warning and returns with the state untouched.  Otherwise it removes
the position, accumulates the pnl, updates the loss streak (strictly
negative pnl increments it, any other pnl resets it), appends a trade
record and trims the history to the last 100 records.  `pnl_percent`
divides by `entry_price * size` (0 in `ℚ` when that product is 0). -/
def close_position (now : ℚ) (symbol : String) (exit_price pnl : ℚ)
    (reason : String) (s : RiskState) : RiskState :=
  match dictFind symbol s.positions with
  | none => s
  | some position =>
      let s := { s with positions := dictErase symbol s.positions
                        daily_pnl := s.daily_pnl + pnl }
      let s :=
        if pnl < 0 then
          { s with consecutive_losses := s.consecutive_losses + 1
                   last_loss_time := some now }
        else
          { s with consecutive_losses := 0 }
      let record : TradeRecord :=
        { symbol := symbol
          side := position.side
          entry_price := position.entry_price
          exit_price := exit_price
          size := position.size
          pnl := pnl
          pnl_percent := pnl / (position.entry_price * position.size) * 100
          entry_time := position.entry_time
          exit_time := now
          reason := reason }
      let history := s.trade_history ++ [record]
      { s with trade_history :=
          if 100 < history.length then history.drop (history.length - 100)
          else history }

/-- `RiskManager.get_adjusted_size` (lines 226-242). -/
def get_adjusted_size (cfg : RiskConfig) (base_size : ℚ) (s : RiskState) : ℚ :=
  if cfg.max_drawdown * (7/10) ≤ s.current_drawdown then
    base_size * (1/2)
  else if 2 ≤ s.consecutive_losses then
    base_size * max (3/10) (1 - (s.consecutive_losses : ℚ) * (15/100))
  else
    base_size

/-! ### Indicator engine (`strategy.py`) -/

/-- `closes.diff()`: consecutive close-to-close deltas,
`delta i = close (i+1) - close i`.  The pandas series keeps a leading `NaN`
in place of the missing first delta; see `gainSeries`/`lossSeries`. -/
def closeDeltas (closes : List ℚ) : List ℚ :=
  (closes.drop 1).zipWith (fun a b => a - b) closes

/-- `delta.where(delta > 0, 0)`: positive deltas, others 0.  The leading
`NaN` of `diff` fails the `> 0` test and is also replaced by 0, hence the
leading `0 ::`. -/
def gainSeries (closes : List ℚ) : List ℚ :=
  0 :: (closeDeltas closes).map (fun d => max d 0)

/-- `(-delta.where(delta < 0, 0))`: magnitudes of negative deltas, others 0,
with the leading `NaN` of `diff` likewise replaced by 0. -/
def lossSeries (closes : List ℚ) : List ℚ :=
  0 :: (closeDeltas closes).map (fun d => max (-d) 0)

/-- `xs.rolling(n).mean().iloc[-1]`: mean of the last `n` entries; `none`
models the `NaN` produced while fewer than `n` entries exist. -/
def rollingMeanLast (n : ℕ) (xs : List ℚ) : Option ℚ :=
  if xs.length < n ∨ n = 0 then none
  else some ((xs.drop (xs.length - n)).sum / n)

/-- The RSI value `_calculate_indicators` computes for the last candle
(lines 106-110 of `strategy.py`).  The code computes
`rs = gain / loss.replace(0, np.inf)`: when the rolling average loss is 0
the denominator becomes `np.inf`, so `rs = gain / inf = 0` — embedded as
the `if l = 0 then 0` branch — and `rsi = 100 - 100 / (1 + 0) = 0`. -/
def rsiLast (period : ℕ) (closes : List ℚ) : Option ℚ :=
  match rollingMeanLast period (gainSeries closes),
        rollingMeanLast period (lossSeries closes) with
  | some g, some l =>
      let rs := if l = 0 then 0 else g / l
      some (100 - 100 / (1 + rs))
  | _, _ => none

/-- The `self._indicators[symbol]` dict written by `_calculate_indicators`. -/
structure IndicatorSnapshot where
  rsi : ℚ
  rsi_prev : ℚ
  fast_sma : ℚ
  slow_sma : ℚ
  price : ℚ
  trend : String
deriving DecidableEq, Repr

/-- `OracleStrategy._calculate_indicators` on a symbol whose buffer holds
`closes`: returns without a snapshot when the buffer holds fewer than
`slow` candles; `rsi_prev` is `rsi.iloc[-2]`, the same rolling computation
ending one candle earlier (or `iloc[-1]` when only one close exists).
The `Option.bind` chain returns `none` where pandas would store `NaN`
components (impossible under the shipped config, where
`slow > rsi_period + 1 > fast`). -/
def calculateIndicators (rsi_period fast slow : ℕ) (closes : List ℚ) :
    Option IndicatorSnapshot :=
  if closes.length < slow then none
  else
    (rsiLast rsi_period closes).bind fun rsi =>
    (if closes.length ≤ 1 then some rsi
     else rsiLast rsi_period closes.dropLast).bind fun rsi_prev =>
    (rollingMeanLast fast closes).bind fun fast_sma =>
    (rollingMeanLast slow closes).bind fun slow_sma =>
    closes.getLast?.map fun price =>
      { rsi := rsi
        rsi_prev := rsi_prev
        fast_sma := fast_sma
        slow_sma := slow_sma
        price := price
        trend := if slow_sma < fast_sma then "bullish" else "bearish" }

/-! ### Signal generator (`strategy.py`) -/

/-- `Signal` enum from `strategy.py`. -/
inductive Signal where
  | LONG
  | SHORT
  | EXIT_LONG
  | EXIT_SHORT
  | HOLD
deriving DecidableEq, Repr

/-- The parameters `generate_signal` reads from the strategy config. -/
structure StrategyParams where
  rsi_entry_low : ℚ
  rsi_entry_high : ℚ
  rsi_exit : ℚ
deriving DecidableEq, Repr

/-- `OracleStrategy.generate_signal` (lines 125-198), reduced to the pair
(signal kind, confidence) of the `TradeSignal` it builds; the remaining
fields (symbol, timestamp, price, indicator snapshot, reason string) are
carried over verbatim from the inputs.  The chained Python comparison
`rsi_prev < low <= rsi <= high` is the conjunction of the three
comparisons; `current_position` holds the registered side string. -/
def generate_signal (p : StrategyParams) (ind : Option IndicatorSnapshot)
    (current_position : Option String) : Signal × ℚ :=
  match ind with
  | none => (Signal.HOLD, 0)
  | some i =>
      if current_position = some "long" then
        if p.rsi_exit ≤ i.rsi then
          (Signal.EXIT_LONG, min 1 ((i.rsi - p.rsi_exit) / 10))
        else (Signal.HOLD, 0)
      else if current_position = some "short" then
        if i.rsi ≤ 100 - p.rsi_exit then
          (Signal.EXIT_SHORT, min 1 ((100 - p.rsi_exit - i.rsi) / 10))
        else (Signal.HOLD, 0)
      else if current_position = none then
        if i.rsi_prev < p.rsi_entry_low ∧ p.rsi_entry_low ≤ i.rsi ∧
           i.rsi ≤ p.rsi_entry_high ∧ i.trend = "bullish" then
          (Signal.LONG,
           min 1 ((p.rsi_entry_high - i.rsi) /
                  (p.rsi_entry_high - p.rsi_entry_low)))
        else if 100 - p.rsi_entry_low < i.rsi_prev ∧
                i.rsi ≤ 100 - p.rsi_entry_low ∧
                100 - p.rsi_entry_high ≤ i.rsi ∧ i.trend = "bearish" then
          (Signal.SHORT,
           min 1 ((i.rsi - (100 - p.rsi_entry_high)) /
                  (p.rsi_entry_high - p.rsi_entry_low)))
        else (Signal.HOLD, 0)
      else (Signal.HOLD, 0)

/-! ### Orchestrator close-all routine (`main.py`) -/

/-- An order sent to `exchange.place_order`. -/
structure Order where
  symbol : String
  side : String
  size : ℚ
  order_type : String
deriving DecidableEq, Repr

/-- `OracleTradingEngine._close_all_positions` (lines 195-202), invoked by
`_execute_entry` when the admission check returns `CLOSE_ALL` (lines
129-131).  The loop body calls only `exchange.place_order` and the logger:
it never calls any `RiskManager` method, so the risk state passes through
unchanged.  Returned are the exchange orders placed and the risk state the
routine leaves behind. -/
def closeAllPositions (s : RiskState) : List Order × RiskState :=
  (s.positions.map (fun kv =>
      { symbol := kv.1
        side := if kv.2.side = "buy" then "sell" else "buy"
        size := kv.2.size
        order_type := "market" }),
   s)

/-! ### Spec-side models (for refinement claims)

These definitions follow the spec's words, to be compared against the
embeddings above; they are not translations of the source. -/

/-- Spec §4.3 check (3) as worded: `consecutive_losses ≥ 3` and now is
before `last_loss_time + cooldown_seconds` (which presupposes a recorded
loss time). -/
def specCooldown (cfg : RiskConfig) (now : ℚ) (s : RiskState) : Prop :=
  3 ≤ s.consecutive_losses ∧
    (match s.last_loss_time with
     | some t => now < t + cfg.cool_down_after_loss
     | none => False)

instance (cfg : RiskConfig) (now : ℚ) (s : RiskState) :
    Decidable (specCooldown cfg now s) := by
  unfold specCooldown
  cases s.last_loss_time <;> infer_instance

/-- The admission decision exactly as the spec words it (§4.3
`checkAdmission`, first match wins): (1) drawdown circuit breaker,
(2) daily loss ratio `|daily_pnl|/peak_equity`, (3) cooldown,
(4) concurrent-position cap, (5) symbol already open, (6) warning zone at
`0.7 × max_drawdown`, (7) allow. -/
def admissionSpec (cfg : RiskConfig) (now : ℚ) (symbol : String)
    (s : RiskState) : RiskAction :=
  if s.current_drawdown ≥ cfg.max_drawdown then
    RiskAction.CLOSE_ALL
  else if s.daily_pnl < 0 ∧ |s.daily_pnl| / s.peak_equity ≥ cfg.max_daily_loss then
    RiskAction.BLOCK
  else if specCooldown cfg now s then
    RiskAction.BLOCK
  else if s.positions.length ≥ cfg.max_concurrent_trades then
    RiskAction.BLOCK
  else if (dictFind symbol s.positions).isSome then
    RiskAction.BLOCK
  else if s.current_drawdown ≥ (7/10) * cfg.max_drawdown then
    RiskAction.REDUCE_SIZE
  else
    RiskAction.ALLOW

/-- `clamp(x, 0, 1)` as the spec words confidence values. -/
def clamp01 (x : ℚ) : ℚ := min 1 (max 0 x)

/-- Folding a sequence of `update_equity` calls (same day) over a state. -/
def runEquities (today : ℤ) (es : List ℚ) (s : RiskState) : RiskState :=
  es.foldl (fun s e => update_equity today e s) s

/-- Invariant maintained by `update_equity` on positive equities: the peak
is non-negative and the drawdown lies in `[0, 1)`. -/
def EquityInv (s : RiskState) : Prop :=
  0 ≤ s.peak_equity ∧ 0 ≤ s.current_drawdown ∧ s.current_drawdown < 1

/-! ### Concrete example inputs used in counterexamples and witnesses -/

/-- A long BTC position. -/
def examplePositionA : Position :=
  { symbol := "BTC", side := "buy", entry_price := 100, size := 2
    entry_time := 0, stop_loss := 93, take_profit := 121, trade_id := "t1" }

/-- A second, different position for the same symbol. -/
def examplePositionB : Position :=
  { symbol := "BTC", side := "sell", entry_price := 200, size := 1
    entry_time := 5, stop_loss := 214, take_profit := 158, trade_id := "t2" }

/-- The risk configuration with the shipped defaults (`config.py`):
10% max daily loss, 25% max drawdown, 300s cooldown, 5 concurrent trades. -/
def exampleConfig : RiskConfig :=
  { max_daily_loss := 1/10, max_drawdown := 1/4
    cool_down_after_loss := 300, max_concurrent_trades := 5 }

/-- A state holding one open BTC position and a one-loss streak. -/
def exampleStateLoss : RiskState :=
  { register_position examplePositionA (initRiskState 0) with
      consecutive_losses := 1 }

/-- A state past the drawdown circuit breaker (30% ≥ 25%) with an active
cooldown (4 straight losses, last loss at t = 0). -/
def exampleStateDrawdown : RiskState :=
  { initRiskState 0 with
      current_drawdown := 3/10
      consecutive_losses := 4
      last_loss_time := some 0 }

/-- A state carrying nonzero daily counters, last reset on day 0. -/
def exampleStateDay : RiskState :=
  { initRiskState 0 with daily_pnl := 5, daily_trade_count := 3 }

/-- 25 strictly rising closes 1, 2, ..., 25. -/
def risingCloses : List ℚ :=
  [1, 2, 3, 4, 5, 6, 7, 8, 9, 10, 11, 12, 13, 14, 15, 16, 17, 18, 19, 20,
   21, 22, 23, 24, 25]

/-- The indicator snapshot of the spec's worked signal example: current
RSI 45, previous RSI 28, bullish trend. -/
def exampleSnapshot : IndicatorSnapshot :=
  { rsi := 45, rsi_prev := 28, fast_sma := 2, slow_sma := 1
    price := 100, trend := "bullish" }

/-! ### Dictionary lemmas -/

theorem dictFind_dictInsert_self {β : Type} (k : String) (v : β)
    (d : List (String × β)) : dictFind k (dictInsert k v d) = some v := by
  induction d with
  | nil => simp [dictInsert, dictFind]
  | cons hd tl ih =>
      by_cases h : hd.1 = k
      · simp [dictInsert, dictFind, h]
      · simp [dictInsert, dictFind, h, ih]

theorem dictFind_dictInsert_ne {β : Type} (k k' : String) (v : β)
    (d : List (String × β)) (h : k' ≠ k) :
    dictFind k' (dictInsert k v d) = dictFind k' d := by
  induction d with
  | nil => simp [dictInsert, dictFind, Ne.symm h]
  | cons hd tl ih =>
      by_cases hk : hd.1 = k
      · simp [dictInsert, dictFind, hk, Ne.symm h]
      · by_cases hk' : hd.1 = k'
        · simp [dictInsert, dictFind, hk, hk', h, Ne.symm h]
        · simp [dictInsert, dictFind, hk, hk', ih]

/-! ### Claim theorems -/

/-- C9: for every symbol with no registered position, `close_position`
leaves the entire risk-manager state unchanged (no pnl accumulation, no
streak update, no history record); the violation is only logged. -/
theorem close_position_missing_symbol_noop (now : ℚ) (symbol : String)
    (exit_price pnl : ℚ) (reason : String) (s : RiskState)
    (h : dictFind symbol s.positions = none) :
    close_position now symbol exit_price pnl reason s = s := by
  unfold close_position
  rw [h]

/-- Witness for C9: closing "BTC" in the freshly initialized (empty)
state returns that state unchanged. -/
theorem close_position_missing_symbol_noop_witness :
    close_position 0 "BTC" 1 (-5) "stop" (initRiskState 0) = initRiskState 0 :=
  close_position_missing_symbol_noop 0 "BTC" 1 (-5) "stop" (initRiskState 0) rfl

/-- C10: the orchestrator's close-all routine places one closing exchange
order per open position but never touches the Risk Manager: the returned
risk state is the input state, so the position registry, daily pnl,
consecutive-loss streak and trade history survive the liquidation. -/
theorem close_all_positions_frame (s : RiskState) :
    (closeAllPositions s).2 = s ∧
    (closeAllPositions s).1.length = s.positions.length ∧
    (closeAllPositions s).2.positions = s.positions ∧
    (closeAllPositions s).2.daily_pnl = s.daily_pnl ∧
    (closeAllPositions s).2.consecutive_losses = s.consecutive_losses ∧
    (closeAllPositions s).2.trade_history = s.trade_history := by
  refine ⟨rfl, ?_, rfl, rfl, rfl, rfl⟩
  simp [closeAllPositions]

/-- Counterexample to C2 as stated: registering a second position for
"BTC" is not a no-op — it replaces the first position and increments the
daily trade count. -/
theorem register_position_duplicate_cex :
    dictFind "BTC" (register_position examplePositionB
        (register_position examplePositionA (initRiskState 0))).positions
      = some examplePositionB ∧
    examplePositionB ≠ examplePositionA ∧
    (register_position examplePositionB
        (register_position examplePositionA (initRiskState 0))).daily_trade_count
      = 2 := by
  decide

/-- C2 amended: `register_position` stores its argument unconditionally,
replacing any existing position for the same symbol, increments
`daily_trade_count`, and leaves all other bindings and risk fields
unchanged; there is no existence check and no warning-guarded no-op. -/
theorem register_position_overwrites (p : Position) (s : RiskState) :
    dictFind p.symbol (register_position p s).positions = some p ∧
    (∀ sym, sym ≠ p.symbol →
      dictFind sym (register_position p s).positions
        = dictFind sym s.positions) ∧
    (register_position p s).daily_trade_count = s.daily_trade_count + 1 ∧
    (register_position p s).daily_pnl = s.daily_pnl ∧
    (register_position p s).consecutive_losses = s.consecutive_losses ∧
    (register_position p s).trade_history = s.trade_history :=
  ⟨dictFind_dictInsert_self p.symbol p s.positions,
   fun sym h => dictFind_dictInsert_ne p.symbol sym p s.positions h,
   rfl, rfl, rfl, rfl⟩

/-- Witness for C2's amended theorem: registering BTC leaves the (absent)
ETH binding untouched. -/
theorem register_position_overwrites_witness :
    dictFind "ETH" (register_position examplePositionA (initRiskState 0)).positions
      = dictFind "ETH" (initRiskState 0).positions :=
  (register_position_overwrites examplePositionA (initRiskState 0)).2.1 "ETH"
    (by decide)

/-- Counterexample to C5 as stated: closing an open position with pnl
exactly 0 resets the streak to 0 (and stamps no loss time) instead of
incrementing it from 1 to 2. -/
theorem close_position_zero_pnl_cex :
    (close_position 7 "BTC" 100 0 "exit" exampleStateLoss).consecutive_losses
      = 0 ∧
    (close_position 7 "BTC" 100 0 "exit" exampleStateLoss).consecutive_losses
      ≠ 2 ∧
    (close_position 7 "BTC" 100 0 "exit" exampleStateLoss).last_loss_time
      = none := by
  decide

/-- C5 amended: on closing an open position, a strictly negative pnl
increments `consecutive_losses` and stamps `last_loss_time := now`, while
any pnl ≥ 0 (including exactly 0) resets the streak to zero and leaves
`last_loss_time` unchanged. -/
theorem close_position_loss_streak (now : ℚ) (symbol : String)
    (exit_price pnl : ℚ) (reason : String) (s : RiskState)
    (h : (dictFind symbol s.positions).isSome) :
    (pnl < 0 →
      (close_position now symbol exit_price pnl reason s).consecutive_losses
        = s.consecutive_losses + 1 ∧
      (close_position now symbol exit_price pnl reason s).last_loss_time
        = some now) ∧
    (0 ≤ pnl →
      (close_position now symbol exit_price pnl reason s).consecutive_losses
        = 0 ∧
      (close_position now symbol exit_price pnl reason s).last_loss_time
        = s.last_loss_time) := by
  unfold close_position
  cases hf : dictFind symbol s.positions with
  | none => rw [hf] at h; simp at h
  | some p =>
      constructor
      · intro hneg
        simp [hf, hneg]
      · intro hpos
        simp [hf, not_lt.mpr hpos]

/-- Witness for C5's amended theorem: a −20 pnl close bumps the streak
from 1 to 2 and stamps the loss time. -/
theorem close_position_loss_streak_witness :
    (close_position 7 "BTC" 90 (-20) "stop" exampleStateLoss).consecutive_losses
      = 2 ∧
    (close_position 7 "BTC" 90 (-20) "stop" exampleStateLoss).last_loss_time
      = some 7 := by
  have h := (close_position_loss_streak 7 "BTC" 90 (-20) "stop" exampleStateLoss
    (by decide)).1 (by norm_num)
  refine ⟨?_, h.2⟩
  rw [h.1]
  decide

/-- C6: `get_adjusted_size` halves the base size in the warning zone
(`current_drawdown ≥ 0.7 × max_drawdown`) independently of the loss
streak; otherwise a streak of ≥ 2 losses scales the base by
`max(0.3, 1 − 0.15 × consecutive_losses)`; otherwise it is returned
unchanged. -/
theorem get_adjusted_size_policy (cfg : RiskConfig) (s : RiskState) (b : ℚ)
    (_hb : 0 ≤ b) :
    ((7/10) * cfg.max_drawdown ≤ s.current_drawdown →
      get_adjusted_size cfg b s = (1/2) * b) ∧
    (¬ (7/10) * cfg.max_drawdown ≤ s.current_drawdown →
      2 ≤ s.consecutive_losses →
      get_adjusted_size cfg b s
        = b * max (3/10) (1 - (15/100) * (s.consecutive_losses : ℚ))) ∧
    (¬ (7/10) * cfg.max_drawdown ≤ s.current_drawdown →
      s.consecutive_losses < 2 →
      get_adjusted_size cfg b s = b) := by
  have hc : (cfg.max_drawdown * (7/10) ≤ s.current_drawdown)
      ↔ ((7/10) * cfg.max_drawdown ≤ s.current_drawdown) := by
    rw [mul_comm]
  unfold get_adjusted_size
  refine ⟨fun hw => ?_, fun hw hl => ?_, fun hw hl => ?_⟩
  · rw [if_pos (hc.mpr hw)]
    ring
  · rw [if_neg (fun hx => hw (hc.mp hx)), if_pos hl,
        mul_comm (s.consecutive_losses : ℚ) (15/100)]
  · rw [if_neg (fun hx => hw (hc.mp hx)), if_neg (not_le.mpr hl)]

/-- Witness for C6: with a 2-loss streak outside the warning zone the
factor is max(0.3, 0.70) = 0.70, so a base of 100 becomes 70. -/
theorem get_adjusted_size_policy_witness :
    get_adjusted_size exampleConfig 100
        { initRiskState 0 with consecutive_losses := 2 }
      = 100 * max (3/10) (1 - (15/100)
          * (({ initRiskState 0 with consecutive_losses := 2 }
               : RiskState).consecutive_losses : ℚ)) ∧
    get_adjusted_size exampleConfig 100
        { initRiskState 0 with consecutive_losses := 2 } = 70 := by
  have h := (get_adjusted_size_policy exampleConfig
    { initRiskState 0 with consecutive_losses := 2 } 100 (by norm_num)).2.1
    (by norm_num [exampleConfig, initRiskState]) (by decide)
  refine ⟨h, ?_⟩
  rw [h]
  have h2 : ((({ initRiskState 0 with consecutive_losses := 2 }
      : RiskState).consecutive_losses : ℚ)) = 2 := by norm_num
  rw [h2, show (1 - (15/100) * (2 : ℚ)) = 7/10 by norm_num,
      max_eq_right (by norm_num : (3/10 : ℚ) ≤ 7/10)]
  norm_num

/-- C7: when the previous RSI was below `entry_low`, the current RSI lies
in `[entry_low, entry_high]` (a non-degenerate band) and the trend is
bullish, evaluating the signal generator with no open position emits a
long signal with confidence
`clamp((entry_high − RSI)/(entry_high − entry_low), 0, 1)`. -/
theorem generate_signal_long_entry (p : StrategyParams) (i : IndicatorSnapshot)
    (hprev : i.rsi_prev < p.rsi_entry_low)
    (hlo : p.rsi_entry_low ≤ i.rsi)
    (hhi : i.rsi ≤ p.rsi_entry_high)
    (ht : i.trend = "bullish")
    (hband : p.rsi_entry_low < p.rsi_entry_high) :
    generate_signal p (some i) none
      = (Signal.LONG,
         clamp01 ((p.rsi_entry_high - i.rsi)
           / (p.rsi_entry_high - p.rsi_entry_low))) := by
  have hx : 0 ≤ (p.rsi_entry_high - i.rsi)
      / (p.rsi_entry_high - p.rsi_entry_low) :=
    div_nonneg (by linarith) (by linarith)
  have hcond : i.rsi_prev < p.rsi_entry_low ∧ p.rsi_entry_low ≤ i.rsi ∧
      i.rsi ≤ p.rsi_entry_high ∧ i.trend = "bullish" := ⟨hprev, hlo, hhi, ht⟩
  simp only [generate_signal]
  rw [if_neg (by simp), if_neg (by simp), if_pos trivial, if_pos hcond]
  unfold clamp01
  rw [max_eq_right hx]

/-- Witness for C7: the spec's worked example — band 30-60, previous RSI
28, current RSI 45, bullish trend — yields a long signal with confidence
0.5. -/
theorem generate_signal_long_entry_witness :
    generate_signal ⟨30, 60, 80⟩ (some exampleSnapshot) none
      = (Signal.LONG, clamp01 ((60 - 45) / (60 - 30))) ∧
    clamp01 (((60 : ℚ) - 45) / (60 - 30)) = 1/2 := by
  constructor
  · exact generate_signal_long_entry ⟨30, 60, 80⟩ exampleSnapshot
      (by norm_num [exampleSnapshot]) (by norm_num [exampleSnapshot])
      (by norm_num [exampleSnapshot]) (by rfl) (by norm_num)
  · unfold clamp01
    rw [show ((60 : ℚ) - 45) / (60 - 30) = 1/2 by norm_num,
        max_eq_right (by norm_num : (0 : ℚ) ≤ 1/2),
        min_eq_right (by norm_num : (1/2 : ℚ) ≤ 1)]

/-- C8: the daily counters are zeroed exactly once when the wall-clock
date advances past the stored last-reset date: the reset stamps
`last_reset` with the new date, resetting again on the same date is a
no-op, and `update_equity` and `check_trade_allowed` touch the daily
fields only through that single reset. -/
theorem daily_reset_once (cfg : RiskConfig) (today : ℤ) (now e : ℚ)
    (symbol : String) (s : RiskState) :
    (s.last_reset < today →
      (resetDailyMetrics today s).daily_pnl = 0 ∧
      (resetDailyMetrics today s).daily_trade_count = 0 ∧
      (resetDailyMetrics today s).last_reset = today) ∧
    (resetDailyMetrics today (resetDailyMetrics today s)
      = resetDailyMetrics today s) ∧
    (¬ s.last_reset < today → resetDailyMetrics today s = s) ∧
    ((update_equity today e s).daily_pnl
       = (resetDailyMetrics today s).daily_pnl ∧
     (update_equity today e s).daily_trade_count
       = (resetDailyMetrics today s).daily_trade_count ∧
     (update_equity today e s).last_reset
       = (resetDailyMetrics today s).last_reset) ∧
    (check_trade_allowed cfg today now symbol s).2
      = resetDailyMetrics today s := by
  refine ⟨fun h => ?_, ?_, fun h => ?_, ?_, rfl⟩
  · simp [resetDailyMetrics, h]
  · by_cases h : s.last_reset < today <;> simp [resetDailyMetrics, h]
  · simp [resetDailyMetrics, h]
  · simp only [update_equity]
    split_ifs <;> simp

/-- Witness for C8: advancing from day 0 to day 1 zeroes the pending
daily counters and stamps day 1. -/
theorem daily_reset_once_witness :
    (resetDailyMetrics 1 exampleStateDay).daily_pnl = 0 ∧
    (resetDailyMetrics 1 exampleStateDay).daily_trade_count = 0 ∧
    (resetDailyMetrics 1 exampleStateDay).last_reset = 1 :=
  (daily_reset_once exampleConfig 1 0 0 "BTC" exampleStateDay).1 (by decide)

/-- The daily reset leaves the equity and drawdown fields alone. -/
theorem resetDailyMetrics_frame (today : ℤ) (s : RiskState) :
    (resetDailyMetrics today s).peak_equity = s.peak_equity ∧
    (resetDailyMetrics today s).current_drawdown = s.current_drawdown := by
  unfold resetDailyMetrics
  split_ifs <;> simp

/-- `update_equity` never lowers the peak. -/
theorem update_equity_peak_mono (today : ℤ) (e : ℚ) (s : RiskState) :
    s.peak_equity ≤ (update_equity today e s).peak_equity := by
  have h1 := (resetDailyMetrics_frame today s).1
  simp only [update_equity]
  split_ifs <;> simp_all <;> linarith

/-- A positive equity update keeps the peak non-negative and the drawdown
inside `[0, 1)`. -/
theorem update_equity_inv (today : ℤ) (e : ℚ) (s : RiskState)
    (he : 0 < e) (hinv : EquityInv s) : EquityInv (update_equity today e s) := by
  obtain ⟨hp, hd0, hd1⟩ := hinv
  have h1 := (resetDailyMetrics_frame today s).1
  simp only [update_equity]
  by_cases ha : (resetDailyMetrics today s).peak_equity < e
  · rw [if_pos ha]
    have hb : (0:ℚ) < ({resetDailyMetrics today s with peak_equity := e}
        : RiskState).peak_equity := he
    rw [if_pos hb]
    refine ⟨le_of_lt he, ?_, ?_⟩
    · show (0:ℚ) ≤ (e - e) / e
      rw [sub_self, zero_div]
    · show (e - e) / e < (1:ℚ)
      rw [sub_self, zero_div]
      norm_num
  · rw [if_neg ha]
    by_cases hb : 0 < (resetDailyMetrics today s).peak_equity
    · rw [if_pos hb]
      have hep : e ≤ (resetDailyMetrics today s).peak_equity := not_lt.mp ha
      refine ⟨hb.le, ?_, ?_⟩
      · show (0:ℚ) ≤ ((resetDailyMetrics today s).peak_equity - e)
            / (resetDailyMetrics today s).peak_equity
        exact div_nonneg (by linarith) hb.le
      · show ((resetDailyMetrics today s).peak_equity - e)
            / (resetDailyMetrics today s).peak_equity < 1
        rw [div_lt_one hb]
        linarith
    · exfalso
      rw [h1] at ha hb
      have h3 : e ≤ s.peak_equity := not_lt.mp ha
      have h4 : ¬ 0 < s.peak_equity := hb
      have h5 : s.peak_equity ≤ 0 := not_lt.mp h4
      linarith

/-- Running a list of positive equity updates preserves `EquityInv`. -/
theorem runEquities_inv (today : ℤ) (es : List ℚ) :
    ∀ s : RiskState, (∀ e ∈ es, 0 < e) → EquityInv s →
      EquityInv (runEquities today es s) := by
  induction es with
  | nil => intro s _ h; exact h
  | cons e tl ih =>
      intro s hall hs
      exact ih _ (fun x hx => hall x (List.mem_cons_of_mem _ hx))
        (update_equity_inv today e s (hall e (List.mem_cons_self _ _)) hs)

/-- Counterexample to C4 as stated: over arbitrary real equities the
drawdown is not always in `[0, 1)` — after equities 1000 then 0 the
drawdown is exactly 1. -/
theorem equity_drawdown_cex :
    (runEquities 0 [1000, 0] (initRiskState 0)).current_drawdown = 1 ∧
    ¬ (runEquities 0 [1000, 0] (initRiskState 0)).current_drawdown < 1 := by
  norm_num [runEquities, update_equity, resetDailyMetrics, initRiskState]

/-- C4 amended: for every sequence of strictly positive equities fed to
`update_equity` from the initial state, the peak equity is non-decreasing
from call to call and the drawdown stays in `[0, 1)` after every prefix
of calls. -/
theorem equity_monotone_drawdown_bounded (today : ℤ) (es : List ℚ)
    (hpos : ∀ e ∈ es, 0 < e) (n : ℕ) :
    (runEquities today (es.take n) (initRiskState today)).peak_equity
      ≤ (runEquities today (es.take (n+1)) (initRiskState today)).peak_equity ∧
    0 ≤ (runEquities today (es.take n) (initRiskState today)).current_drawdown ∧
    (runEquities today (es.take n) (initRiskState today)).current_drawdown
      < 1 := by
  have hinit : EquityInv (initRiskState today) := by
    refine ⟨le_refl 0, le_refl 0, ?_⟩
    norm_num [initRiskState]
  have htake : ∀ m, EquityInv
      (runEquities today (es.take m) (initRiskState today)) := fun m =>
    runEquities_inv today (es.take m) _
      (fun e he => hpos e (List.mem_of_mem_take he)) hinit
  refine ⟨?_, (htake n).2.1, (htake n).2.2⟩
  rw [List.take_succ]
  cases hg : es[n]? with
  | none => simp [hg]
  | some e =>
      rw [show runEquities today (es.take n ++ (some e).toList)
            (initRiskState today)
          = update_equity today e
              (runEquities today (es.take n) (initRiskState today)) by
        simp [runEquities, List.foldl_append]]
      exact update_equity_peak_mono today e _

/-- Witness for C4's amended theorem: the spec's example sequence
[1000, 1200, 900] keeps the invariant at the third call and ends with
peak 1200 and drawdown 0.25. -/
theorem equity_monotone_drawdown_bounded_witness :
    ((runEquities 0 ([1000, 1200, 900].take 2) (initRiskState 0)).peak_equity
       ≤ (runEquities 0 ([1000, 1200, 900].take 3)
            (initRiskState 0)).peak_equity ∧
     0 ≤ (runEquities 0 ([1000, 1200, 900].take 2)
            (initRiskState 0)).current_drawdown ∧
     (runEquities 0 ([1000, 1200, 900].take 2)
        (initRiskState 0)).current_drawdown < 1) ∧
    (runEquities 0 [1000, 1200, 900] (initRiskState 0)).peak_equity = 1200 ∧
    (runEquities 0 [1000, 1200, 900] (initRiskState 0)).current_drawdown
      = 1/4 :=
  ⟨equity_monotone_drawdown_bounded 0 [1000, 1200, 900] (by norm_num) 2,
   by norm_num [runEquities, update_equity, resetDailyMetrics, initRiskState],
   by norm_num [runEquities, update_equity, resetDailyMetrics, initRiskState]⟩

/-- The source decision chain agrees with the spec's wording of the
admission order on every state with a non-negative peak (the only
difference in the texts is `|daily_pnl / peak|` versus
`|daily_pnl| / peak`, and the spelling of the cooldown and warning-zone
conditions). -/
theorem tradeDecision_eq_admissionSpec (cfg : RiskConfig) (now : ℚ)
    (symbol : String) (s : RiskState) (hpeak : 0 ≤ s.peak_equity) :
    tradeDecision cfg now symbol s = admissionSpec cfg now symbol s := by
  have h2 : |s.daily_pnl / s.peak_equity| = |s.daily_pnl| / s.peak_equity := by
    rw [abs_div, abs_of_nonneg hpeak]
  have h3 : cooldownActive cfg now s ↔ specCooldown cfg now s := by
    unfold cooldownActive specCooldown
    cases s.last_loss_time <;> simp
  unfold tradeDecision admissionSpec
  simp only [ge_iff_le, h2, h3, mul_comm]

/-- C3: `check_trade_allowed` evaluates the admission checks in exactly
the spec's precedence order (first match wins), and in particular any
state with `current_drawdown ≥ max_drawdown` yields CLOSE_ALL regardless
of every other condition. -/
theorem check_trade_allowed_precedence (cfg : RiskConfig) (today : ℤ)
    (now : ℚ) (symbol : String) (s : RiskState)
    (hpeak : 0 ≤ s.peak_equity) :
    (check_trade_allowed cfg today now symbol s).1
      = admissionSpec cfg now symbol (resetDailyMetrics today s) ∧
    (cfg.max_drawdown ≤ s.current_drawdown →
      (check_trade_allowed cfg today now symbol s).1
        = RiskAction.CLOSE_ALL) := by
  have hp : 0 ≤ (resetDailyMetrics today s).peak_equity := by
    rw [(resetDailyMetrics_frame today s).1]
    exact hpeak
  constructor
  · exact tradeDecision_eq_admissionSpec cfg now symbol _ hp
  · intro h
    show tradeDecision cfg now symbol (resetDailyMetrics today s)
      = RiskAction.CLOSE_ALL
    unfold tradeDecision
    rw [if_pos (by rw [(resetDailyMetrics_frame today s).2]; exact h)]

/-- Witness for C3: a state past the circuit breaker (30% ≥ 25%) with an
active cooldown still produces CLOSE_ALL, not the cooldown's BLOCK. -/
theorem check_trade_allowed_precedence_witness :
    (check_trade_allowed exampleConfig 0 10 "BTC" exampleStateDrawdown).1
      = RiskAction.CLOSE_ALL ∧
    specCooldown exampleConfig 10 exampleStateDrawdown :=
  ⟨(check_trade_allowed_precedence exampleConfig 0 10 "BTC"
      exampleStateDrawdown
      (by norm_num [exampleStateDrawdown, initRiskState])).2
      (by norm_num [exampleStateDrawdown, initRiskState, exampleConfig]),
   by norm_num [specCooldown, exampleStateDrawdown, initRiskState,
     exampleConfig]⟩

/-- C1 (code bug): on the strictly rising close series 1..25 every
close-to-close delta is positive, so the rolling average loss over the
14-candle RSI window is 0 — yet the RSI the code computes is 0, not the
claimed 100.  `rs = gain / loss.replace(0, np.inf)` in `strategy.py`
makes `RS = gain / inf = 0` exactly when `avg_loss = 0`, so
`RSI = 100 − 100/(1+0) = 0` where the standard definition (and the spec)
require RSI = 100. -/
theorem rsi_rising_series_is_zero :
    (∀ d ∈ closeDeltas risingCloses, 0 < d) ∧
    rollingMeanLast 14 (lossSeries risingCloses) = some 0 ∧
    (calculateIndicators 14 10 20 risingCloses).map IndicatorSnapshot.rsi
      = some 0 ∧
    (calculateIndicators 14 10 20 risingCloses).map IndicatorSnapshot.rsi
      ≠ some 100 := by
  have h1 : rsiLast 14 risingCloses = some 0 := by
    rw [rsiLast,
      show rollingMeanLast 14 (gainSeries risingCloses) = some 1 by
        norm_num [rollingMeanLast, gainSeries, closeDeltas, risingCloses,
          max_def],
      show rollingMeanLast 14 (lossSeries risingCloses) = some 0 by
        norm_num [rollingMeanLast, lossSeries, closeDeltas, risingCloses,
          max_def]]
    norm_num
  have h2 : rsiLast 14 risingCloses.dropLast = some 0 := by
    rw [rsiLast,
      show rollingMeanLast 14 (gainSeries risingCloses.dropLast) = some 1 by
        norm_num [rollingMeanLast, gainSeries, closeDeltas, risingCloses,
          max_def],
      show rollingMeanLast 14 (lossSeries risingCloses.dropLast) = some 0 by
        norm_num [rollingMeanLast, lossSeries, closeDeltas, risingCloses,
          max_def]]
    norm_num
  have h3 : rollingMeanLast 10 risingCloses = some (41/2) := by
    norm_num [rollingMeanLast, risingCloses]
  have h4 : rollingMeanLast 20 risingCloses = some (31/2) := by
    norm_num [rollingMeanLast, risingCloses]
  have hlen : risingCloses.length = 25 := rfl
  have hlast : risingCloses.getLast? = some 25 := rfl
  have hrsi : (calculateIndicators 14 10 20 risingCloses).map
      IndicatorSnapshot.rsi = some 0 := by
    simp [calculateIndicators, h1, h2, h3, h4, hlen, hlast]
  refine ⟨by norm_num [closeDeltas, risingCloses], ?_, hrsi, ?_⟩
  · norm_num [rollingMeanLast, lossSeries, closeDeltas, risingCloses,
      max_def]
  · rw [hrsi]
    simp

end Oracle
